import Mathlib

/-!
Verification development for `corsair-link.c`, a hwmon driver for the
Corsair HX1000i power supply.  The driver talks to the device through
64-byte HID frames: a command frame is staged in a shared buffer,
transmitted, and the asynchronous reply is copied back into the same
buffer.  This file gives a shallow embedding of the protocol engine:
the fixed-point codec `get_int_from_uint16_double`, the status-byte
mapping `ccp_get_errno`, the transmit/wait primitive `rmi_send_cmd`,
the register-access operations (`rmi_temperature`, `rmi_fan`,
`rmi_voltage`, `rmi_current`, `rmi_power`, `corsairlink_rmi_name`),
the legacy `send_usb_cmd`/`get_data` path, the raw-event callback
`ccp_raw_event`, and the hwmon entry point `ccp_read`.

Machine integers are modelled as `Nat`/`Int` with explicit reductions
modulo `2^32` (for `uint32_t`), `2^8` (for the `u8` buffer bytes) and a
final two's-complement reinterpretation for values returned as C `int`.
The transport is modelled as a script `Nat → TransportResult` giving,
for the n-th transmission of a session, either a negative send error
from `hid_hw_output_report`, a timeout of the completion wait, or an
inbound reply frame delivered by the raw-event callback.
-/

/-- Linux errno value `EOPNOTSUPP` (95). -/
def EOPNOTSUPP : Int := 95

/-- Linux errno value `EINVAL` (22). -/
def EINVAL : Int := 22

/-- Linux errno value `ENODATA` (61). -/
def ENODATA : Int := 61

/-- Linux errno value `ETIMEDOUT` (110). -/
def ETIMEDOUT : Int := 110

/-- Linux errno value for an unrecognised device status (`EIO` = 5). -/
def EIOERR : Int := 5

/-! ## Fixed-point codec (source lines 191-223) -/

/-- C `pow2i(exp)`, i.e. `1 << exp`. -/
def pow2i (exp : Nat) : Nat := 2 ^ exp

/-- Reinterpret a `uint32_t` value (a natural number below `2^32`) as a
C `int`, i.e. as a two's-complement signed 32-bit integer. -/
def toInt32 (n : Nat) : Int :=
  if n < 2147483648 then (n : Int) else (n : Int) - 4294967296

/-- The `fraction` local of `get_int_from_uint16_double` after both
adjustments, as a `uint32_t` value.  Mirrors:
`fraction = data & 2047;`
`if (fraction > 1023) fraction = -(2048 - fraction);` (the unary minus
on `uint32_t` wraps modulo `2^32`), and
`if ((fraction & 1) == 1) fraction++;` (the increment also wraps). -/
def frac_u32 (data : Nat) : Nat :=
  let fraction := data % 2048
  let fraction := if fraction > 1023 then 4294967296 - (2048 - fraction) else fraction
  if fraction % 2 = 1 then (fraction + 1) % 4294967296 else fraction

/-- The `exponent` local of `get_int_from_uint16_double`: the top five
bits of the word, sign-adjusted exactly as the source does
(`exponent = data >> 11; if (exponent > 15) exponent = -(32 - exponent);`). -/
def exp_s32 (data : Nat) : Int :=
  let exponent : Int := (data / 2048 : Nat)
  if exponent > 15 then -(32 - exponent) else exponent

/-- C `get_int_from_uint16_double` (source lines 196-223).  `result` is a
`uint32_t`, so the multiplications wrap modulo `2^32` and the division by
`pow2i(-exponent)` is unsigned; the final `return result;` converts the
`uint32_t` to a C `int`. -/
def get_int_from_uint16_double (data : Nat) : Int :=
  let fraction := frac_u32 data
  let exponent := exp_s32 data
  let result := (fraction * 1000) % 4294967296
  let result :=
    if exponent > 0 then (result * pow2i exponent.toNat) % 4294967296
    else result / pow2i (-exponent).toNat
  toInt32 result

/-- Mantissa field as the claim describes it: low 11 bits,
two's-complement within 11 bits (values at or above 1024 stand for
`value - 2048`). -/
def claim_mantissa (data : Nat) : Int :=
  let fraction := data % 2048
  if 1024 ≤ fraction then (fraction : Int) - 2048 else (fraction : Int)

/-- Exponent field as the claim describes it: top 5 bits,
two's-complement within 5 bits (values at or above 16 stand for
`value - 32`). -/
def claim_exponent (data : Nat) : Int :=
  let exponent := data / 2048
  if 16 ≤ exponent then (exponent : Int) - 32 else (exponent : Int)

/-- The claim's rounding rule: an odd mantissa is incremented by one. -/
def roundUpEven (m : Int) : Int := if m % 2 = 1 then m + 1 else m

/-- The decode exactly as the claim words it: `mantissa * 1000 * 2^exponent`
for a nonnegative exponent, and `mantissa * 1000 / 2^|exponent|` with
integer division truncating toward zero (`Int.tdiv`) otherwise. -/
def claim_decode (data : Nat) : Int :=
  let m := roundUpEven (claim_mantissa data)
  let e := claim_exponent data
  if 0 ≤ e then m * 1000 * 2 ^ e.toNat
  else Int.tdiv (m * 1000) (2 ^ (-e).toNat)

/-- The decode as the amended claim words it: the rounded mantissa times
1000 is reduced to its unsigned 32-bit representative; for a positive
exponent the product with `2^exponent` is again reduced modulo `2^32`,
for a nonpositive exponent the representative is floor-divided by
`2^|exponent|`; the result is reinterpreted as a signed 32-bit integer. -/
def decode_u32_spec (data : Nat) : Int :=
  let m := roundUpEven (claim_mantissa data)
  let e := claim_exponent data
  let u : Int := (m * 1000) % 4294967296
  let r : Int :=
    if e > 0 then (u * 2 ^ e.toNat) % 4294967296
    else u / 2 ^ (-e).toNat
  if r < 2147483648 then r else r - 4294967296

/-- Signed 32-bit wraparound, used to model the C `int` multiplication
`get_int_from_uint16_double(temp) * 1000` in `rmi_power`. -/
def wrap_s32 (x : Int) : Int :=
  let r := x % 4294967296
  if r < 2147483648 then r else r - 4294967296

/-! ## Status mapping (source lines 93-109) -/

/-- The `switch (ccp->buffer[0])` of `ccp_get_errno`, as a function of the
status byte. -/
def status_to_errno (b : Nat) : Int :=
  if b = 0x00 then 0
  else if b = 0x01 then -EOPNOTSUPP
  else if b = 0x10 then -EINVAL
  else if b = 0x11 then -ENODATA
  else if b = 0x12 then -ENODATA
  else -EIOERR

/-- C `ccp_get_errno`: reads the status byte from the shared buffer and
maps it. -/
def ccp_get_errno (buffer : Nat → Nat) : Int := status_to_errno (buffer 0)

/-- Status table written from the claim text: `0x00` success, `0x01`
unsupported operation, `0x10` invalid argument, `0x11`/`0x12` no data,
anything else unknown-device-error. -/
def status_spec (b : Nat) : Int :=
  if b = 0x00 then 0
  else if b = 0x01 then -EOPNOTSUPP
  else if b = 0x10 then -EINVAL
  else if b = 0x11 ∨ b = 0x12 then -ENODATA
  else -EIOERR

/-! ## Session state and transport model -/

/-- Caller-side actions on the shared session, recorded in order so that
the locking discipline of the `ccp->mutex` commentary (source line 83:
`whenever buffer is used, lock before send_usb_cmd`) can be stated:
taking and dropping the mutex, writing the shared buffer, and handing
the buffer to `hid_hw_output_report`. -/
inductive Event
  | lock
  | unlock
  | bufWrite
  | send
deriving DecidableEq

/-- Outcome of one transmission, scripted by transmission index:
`sendErr k` models `hid_hw_output_report` failing with `-(k+1) < 0`;
`timeout` models `wait_for_completion_timeout` elapsing; `reply size f`
models the device answering with a `size`-byte report whose bytes are
`f 0, f 1, ...`. -/
inductive TransportResult
  | sendErr (k : Nat)
  | timeout
  | reply (size : Nat) (frame : Nat → Nat)

/-- The mutable parts of `struct ccp_device` that the protocol engine
touches, plus two histories used only to state theorems: the frames
handed to `hid_hw_output_report` (`sent`) and the caller-side actions
(`events`).  `nsent` counts transmissions and indexes the script. -/
structure Sess where
  buffer : Nat → Nat
  nsent : Nat
  sent : List (Nat → Nat)
  events : List Event

/-- Store one byte in the `u8` buffer (values wrap modulo 256). -/
def updateByte (b : Nat → Nat) (i v : Nat) : Nat → Nat :=
  fun j => if j = i then v % 256 else b j

/-- `memcpy(dst, src, n)` into the 64-byte `u8` buffer: the first `n`
bytes come from `src` (reduced to `u8`), the rest keep `dst`. -/
def memcpy_into (dst src : Nat → Nat) (n : Nat) : Nat → Nat :=
  fun i => if i < n then src i % 256 else dst i

/-- A single `ccp->buffer[i] = v;` store, with its `Event.bufWrite`. -/
def bufSet (s : Sess) (i v : Nat) : Sess :=
  { s with buffer := updateByte s.buffer i v, events := s.events ++ [Event.bufWrite] }

/-- Fresh session: the probe allocates the buffer (modelled zeroed) and
no frame has been sent. -/
def initSess : Sess :=
  { buffer := fun _ => 0, nsent := 0, sent := [], events := [] }

/-- Default frame for `List.getD` on the `sent` history. -/
def zbuf : Nat → Nat := fun _ => 0

/-- C `rmi_send_cmd` (source lines 150-168): reinitialise the completion,
hand the buffer to `hid_hw_output_report`, and (when `wait`) block until
the raw-event callback copies the reply into the buffer and signals, or
the 300 ms budget elapses.  A successful `hid_hw_output_report` returns
the byte count 64; a successful wait returns the remaining jiffies,
modelled as 1 — callers only test the sign.  The reply copy is the
`memcpy` of `ccp_raw_event` performed from interrupt context, so it is
not a caller-side `Event.bufWrite`. -/
def rmi_send_cmd (script : Nat → TransportResult) (wait : Bool) (s : Sess) :
    Int × Sess :=
  let s1 : Sess :=
    { s with nsent := s.nsent + 1, sent := s.sent ++ [s.buffer],
             events := s.events ++ [Event.send] }
  match script s.nsent with
  | TransportResult.sendErr k => (-(k + 1 : Int), s1)
  | TransportResult.timeout => (if wait then -ETIMEDOUT else 64, s1)
  | TransportResult.reply size f =>
      (if wait then 1 else 64,
       { s1 with buffer := memcpy_into s1.buffer f (min 64 size) })

/-- C `send_usb_cmd` (source lines 112-134): zero the buffer, stage the
four command bytes, then transmit and wait exactly as `rmi_send_cmd`
does; a completed exchange is mapped through `ccp_get_errno`. -/
def send_usb_cmd (script : Nat → TransportResult)
    (command byte1 byte2 byte3 : Nat) (s : Sess) : Int × Sess :=
  let s := { s with buffer := fun _ => 0, events := s.events ++ [Event.bufWrite] }
  let s := bufSet s 0 command
  let s := bufSet s 1 byte1
  let s := bufSet s 2 byte2
  let s := bufSet s 3 byte3
  let p := rmi_send_cmd script true s
  (if p.fst < 0 then p.fst else ccp_get_errno p.snd.buffer, p.snd)

/-- C `get_data` (source lines 348-365): take the mutex, run
`send_usb_cmd`, read the payload only when the status mapping returned
success, and drop the mutex on both exits. -/
def get_data (script : Nat → TransportResult) (command channel : Nat)
    (two_byte_data : Bool) (s : Sess) : Int × Sess :=
  let s := { s with events := s.events ++ [Event.lock] }
  let p := send_usb_cmd script command channel 0 0 s
  let ret :=
    if p.fst ≠ 0 then p.fst
    else if two_byte_data then (p.snd.buffer 1 : Int) * 256 + p.snd.buffer 2
    else (p.snd.buffer 1 : Int)
  (ret, { p.snd with events := p.snd.events ++ [Event.unlock] })

/-! ## Register access operations (source lines 170-344 and 566-581) -/

/-- C `rmi_temperature`: one read-register frame for register
`0x8D + probe`, payload combined as `(buffer[2] << 8) + buffer[3]`. -/
def rmi_temperature (script : Nat → TransportResult) (probe : Nat) (s : Sess) :
    Int × Sess :=
  let s := bufSet s 0 0x03
  let s := bufSet s 1 (0x8D + probe)
  let s := bufSet s 2 0x00
  let s := bufSet s 3 0x00
  let p := rmi_send_cmd script true s
  (if p.fst < 0 then p.fst else ((p.snd.buffer 2 * 256 + p.snd.buffer 3 : Nat) : Int),
   p.snd)

/-- C `rmi_voltage`: channel 0 reads register `0x88` directly; any other
channel first writes channel-select register `0x00` with argument
`probe - 1` — discarding that transmission's result (source line 245) —
and then reads register `0x8B`.  The 16-bit payload is combined as
`(buffer[3] << 8) | buffer[2]` (the bytes are `u8`, so the bitwise or is
plain addition of disjoint ranges) and decoded. -/
def rmi_voltage (script : Nat → TransportResult) (probe : Nat) (s : Sess) :
    Int × Sess :=
  if probe = 0 then
    let s := bufSet s 0 0x03
    let s := bufSet s 1 0x88
    let s := bufSet s 2 0x00
    let s := bufSet s 3 0x00
    let p := rmi_send_cmd script true s
    (if p.fst < 0 then p.fst
     else get_int_from_uint16_double (p.snd.buffer 3 * 256 + p.snd.buffer 2), p.snd)
  else
    let s := bufSet s 0 0x02
    let s := bufSet s 1 0x00
    let s := bufSet s 2 (probe - 1)
    let s := (rmi_send_cmd script true s).snd
    let s := bufSet s 0 0x03
    let s := bufSet s 1 0x8B
    let s := bufSet s 2 0x00
    let s := bufSet s 3 0x00
    let p := rmi_send_cmd script true s
    (if p.fst < 0 then p.fst
     else get_int_from_uint16_double (p.snd.buffer 3 * 256 + p.snd.buffer 2), p.snd)

/-- C `rmi_power`: like `rmi_voltage` with registers `0xEE` (input power)
and `0x96` (selected-rail power); the decoded value is multiplied by
1000 in C `int` arithmetic, modelled as a signed 32-bit wraparound. -/
def rmi_power (script : Nat → TransportResult) (probe : Nat) (s : Sess) :
    Int × Sess :=
  if probe = 0 then
    let s := bufSet s 0 0x03
    let s := bufSet s 1 0xEE
    let s := bufSet s 2 0x00
    let s := bufSet s 3 0x00
    let p := rmi_send_cmd script true s
    (if p.fst < 0 then p.fst
     else wrap_s32 (get_int_from_uint16_double (p.snd.buffer 3 * 256 + p.snd.buffer 2) * 1000),
     p.snd)
  else
    let s := bufSet s 0 0x02
    let s := bufSet s 1 0x00
    let s := bufSet s 2 (probe - 1)
    let s := (rmi_send_cmd script true s).snd
    let s := bufSet s 0 0x03
    let s := bufSet s 1 0x96
    let s := bufSet s 2 0x00
    let s := bufSet s 3 0x00
    let p := rmi_send_cmd script true s
    (if p.fst < 0 then p.fst
     else wrap_s32 (get_int_from_uint16_double (p.snd.buffer 3 * 256 + p.snd.buffer 2) * 1000),
     p.snd)

/-- C `rmi_current` (source lines 301-325): always a channel-select write
with the raw `probe` argument — its result discarded (source line 311) —
then a read of current register `0x8C`, decoded. -/
def rmi_current (script : Nat → TransportResult) (probe : Nat) (s : Sess) :
    Int × Sess :=
  let s := bufSet s 0 0x02
  let s := bufSet s 1 0x00
  let s := bufSet s 2 probe
  let s := (rmi_send_cmd script true s).snd
  let s := bufSet s 0 0x03
  let s := bufSet s 1 0x8C
  let s := bufSet s 2 0x00
  let s := bufSet s 3 0x00
  let p := rmi_send_cmd script true s
  (if p.fst < 0 then p.fst
   else get_int_from_uint16_double (p.snd.buffer 3 * 256 + p.snd.buffer 2), p.snd)

/-- C `rmi_fan` (source lines 327-344): one read-register frame for fan
register `0x90`, payload combined as `(buffer[3] << 8) | buffer[2]` and
returned raw. -/
def rmi_fan (script : Nat → TransportResult) (s : Sess) : Int × Sess :=
  let s := bufSet s 0 0x03
  let s := bufSet s 1 0x90
  let s := bufSet s 2 0x00
  let s := bufSet s 3 0x00
  let p := rmi_send_cmd script true s
  (if p.fst < 0 then p.fst else ((p.snd.buffer 3 * 256 + p.snd.buffer 2 : Nat) : Int),
   p.snd)

/-- C `corsairlink_rmi_name` (source lines 566-581): stage `0xFE 0x03`,
transmit — the transmission's result is never looked at (source line
576) — copy 16 bytes starting at offset 2 into the caller's (zeroed)
name array, and return 0 unconditionally. -/
def corsairlink_rmi_name (script : Nat → TransportResult) (s : Sess) :
    Int × (Nat → Nat) × Sess :=
  let s := bufSet s 0 0xfe
  let s := bufSet s 1 0x03
  let s := (rmi_send_cmd script true s).snd
  let name := fun i => if i < 16 then s.buffer (2 + i) else 0
  (0, name, s)

/-- The attach-time gate of `ccp_probe` (source lines 617-632): the
session is handed to `hwmon_device_register_with_info` exactly when the
name-read result passed the `if (ret) goto out_hw_close;` check. -/
def ccp_probe_publishes (script : Nat → TransportResult) : Bool :=
  decide ((corsairlink_rmi_name script initSess).fst = 0)

/-! ## Raw-event callback (source lines 136-148) -/

/-- The pieces of device state the raw-event callback touches: the
shared buffer and the completion, where `completionDone = true` models
`completion_done(&ccp->wait_input_report)` (already signalled, nobody
waiting). -/
structure RawState where
  buffer : Nat → Nat
  completionDone : Bool

/-- C `ccp_raw_event`: if the completion is already signalled the frame
is dropped; otherwise `min(IN_BUFFER_SIZE, size)` bytes are copied into
the shared buffer and the completion is signalled. -/
def ccp_raw_event (st : RawState) (data : Nat → Nat) (size : Nat) : RawState :=
  if st.completionDone then st
  else { buffer := memcpy_into st.buffer data (min 64 size), completionDone := true }

/-! ## hwmon read entry point (source lines 411-490) -/

/-- The sensor kinds whose `_input` attribute `ccp_read` serves. -/
inductive HwmonType
  | temp
  | fan
  | curr
  | power
  | inn

/-- C `ccp_read` for the `_input` attributes: call the register-access
operation, propagate a negative return as the error, otherwise store the
value in `*val` (the `Option Int`) and return 0. -/
def ccp_read (script : Nat → TransportResult) (ty : HwmonType) (channel : Nat)
    (s : Sess) : Int × Option Int × Sess :=
  let p :=
    match ty with
    | HwmonType.temp => rmi_temperature script channel s
    | HwmonType.fan => rmi_fan script s
    | HwmonType.curr => rmi_current script channel s
    | HwmonType.power => rmi_power script channel s
    | HwmonType.inn => rmi_voltage script channel s
  (if p.fst < 0 then p.fst else 0,
   if p.fst < 0 then none else some p.fst, p.snd)

/-! ## Lock discipline and helper notions for the theorems -/

/-- Check a caller-side event trace against the mutex discipline the
source documents: the buffer may be written and transmitted only while
the mutex is held, unlocks must balance locks, and the trace must end
with the mutex free. -/
def locksOk : Nat → List Event → Bool
  | d, [] => d == 0
  | d, Event.lock :: es => locksOk (d + 1) es
  | d, Event.unlock :: es => decide (0 < d) && locksOk (d - 1) es
  | d, Event.bufWrite :: es => decide (0 < d) && locksOk d es
  | d, Event.send :: es => decide (0 < d) && locksOk d es

/-- Byte `i` of the shared buffer after a reply of `size` bytes `f` has
been copied over a buffer whose staged command bytes were zero at `i`:
within the copied prefix the reply byte, outside it the staged zero. -/
def replyByte (size : Nat) (f : Nat → Nat) (i : Nat) : Nat :=
  if i < min 64 size then f i % 256 else 0

/-- A transport that never answers: every wait times out. -/
def scriptTO : Nat → TransportResult := fun _ => TransportResult.timeout

/-- A reply frame with a given status byte and 16-bit payload in the
third and fourth slots, all other bytes zero. -/
def c2frame (st b2 b3 : Nat) : Nat → Nat :=
  fun i => if i = 0 then st else if i = 2 then b2 else if i = 3 then b3 else 0

/-- A transport that always answers with `c2frame st b2 b3`. -/
def scriptStatus (st b2 b3 : Nat) : Nat → TransportResult :=
  fun _ => TransportResult.reply 64 (c2frame st b2 b3)

/-- A transport whose first transmission times out and whose later ones
are answered with an all-zero success frame. -/
def scriptC3 : Nat → TransportResult :=
  fun n => if n = 0 then TransportResult.timeout
           else TransportResult.reply 64 (fun _ => 0)

/-- A transport that always answers with an all-zero success frame. -/
def zeroReply : Nat → TransportResult :=
  fun _ => TransportResult.reply 64 (fun _ => 0)

/-- A reply frame whose low payload byte (slot 2) is 1 and whose high
payload byte (slot 3) is 0. -/
def fanFrame : Nat → Nat := fun i => if i = 2 then 1 else 0

/-- A transport that always answers with `fanFrame`. -/
def scriptFan : Nat → TransportResult :=
  fun _ => TransportResult.reply 64 fanFrame

/-- A reply frame whose byte `j` is `j + 10`, to exhibit which bytes the
name copy picks up. -/
def nameFrame : Nat → Nat := fun j => j + 10

/-- A transport that always answers with `nameFrame`. -/
def scriptName : Nat → TransportResult :=
  fun _ => TransportResult.reply 64 nameFrame

/-! ## Helper lemmas about the transmit primitive and the codec -/

theorem rmi_send_cmd_snd (script : Nat → TransportResult) (w : Bool) (s : Sess) :
    (rmi_send_cmd script w s).snd
      = { s with nsent := s.nsent + 1, sent := s.sent ++ [s.buffer],
                 events := s.events ++ [Event.send],
                 buffer := match script s.nsent with
                           | TransportResult.reply size f => memcpy_into s.buffer f (min 64 size)
                           | _ => s.buffer } := by
  unfold rmi_send_cmd
  cases script s.nsent <;> rfl

theorem rmi_send_cmd_fst (script : Nat → TransportResult) (s : Sess) :
    (rmi_send_cmd script true s).fst
      = match script s.nsent with
        | TransportResult.sendErr k => -(k + 1 : Int)
        | TransportResult.timeout => -ETIMEDOUT
        | TransportResult.reply _ _ => 1 := by
  unfold rmi_send_cmd
  cases script s.nsent <;> rfl

theorem frac_u32_mod (data : Nat) :
    ((frac_u32 data : Nat) : Int) % 4294967296
      = roundUpEven (claim_mantissa data) % 4294967296 := by
  simp only [frac_u32, claim_mantissa, roundUpEven]
  split_ifs <;> omega

theorem exp_s32_eq (data : Nat) : exp_s32 data = claim_exponent data := by
  simp only [exp_s32, claim_exponent]
  split_ifs <;> omega

theorem status_to_errno_zero_iff (b : Nat) : status_to_errno b = 0 ↔ b = 0 := by
  unfold status_to_errno
  split_ifs <;> simp_all [EOPNOTSUPP, EINVAL, ENODATA, EIOERR]

theorem rmi_voltage_fst_formula (q : Nat) (script : Nat → TransportResult) :
    (rmi_voltage script (q + 1) initSess).fst
      = (match script 1 with
         | TransportResult.sendErr k => -(k + 1 : Int)
         | TransportResult.timeout => -ETIMEDOUT
         | TransportResult.reply size f =>
             get_int_from_uint16_double (replyByte size f 3 * 256 + replyByte size f 2)) := by
  cases h1 : script 1 with
  | sendErr k =>
      simp [rmi_voltage, bufSet, rmi_send_cmd_snd, rmi_send_cmd_fst, initSess,
        updateByte, h1]
      omega
  | timeout =>
      simp [rmi_voltage, bufSet, rmi_send_cmd_snd, rmi_send_cmd_fst, initSess,
        updateByte, h1, ETIMEDOUT]
  | reply size f =>
      simp [rmi_voltage, bufSet, rmi_send_cmd_snd, rmi_send_cmd_fst, initSess,
        updateByte, h1, replyByte, memcpy_into]

theorem rmi_power_fst_formula (q : Nat) (script : Nat → TransportResult) :
    (rmi_power script (q + 1) initSess).fst
      = (match script 1 with
         | TransportResult.sendErr k => -(k + 1 : Int)
         | TransportResult.timeout => -ETIMEDOUT
         | TransportResult.reply size f =>
             wrap_s32 (get_int_from_uint16_double
               (replyByte size f 3 * 256 + replyByte size f 2) * 1000)) := by
  cases h1 : script 1 with
  | sendErr k =>
      simp [rmi_power, bufSet, rmi_send_cmd_snd, rmi_send_cmd_fst, initSess,
        updateByte, h1]
      omega
  | timeout =>
      simp [rmi_power, bufSet, rmi_send_cmd_snd, rmi_send_cmd_fst, initSess,
        updateByte, h1, ETIMEDOUT]
  | reply size f =>
      simp [rmi_power, bufSet, rmi_send_cmd_snd, rmi_send_cmd_fst, initSess,
        updateByte, h1, replyByte, memcpy_into]

theorem rmi_current_fst_formula (q : Nat) (script : Nat → TransportResult) :
    (rmi_current script q initSess).fst
      = (match script 1 with
         | TransportResult.sendErr k => -(k + 1 : Int)
         | TransportResult.timeout => -ETIMEDOUT
         | TransportResult.reply size f =>
             get_int_from_uint16_double (replyByte size f 3 * 256 + replyByte size f 2)) := by
  cases h1 : script 1 with
  | sendErr k =>
      simp [rmi_current, bufSet, rmi_send_cmd_snd, rmi_send_cmd_fst, initSess,
        updateByte, h1]
      omega
  | timeout =>
      simp [rmi_current, bufSet, rmi_send_cmd_snd, rmi_send_cmd_fst, initSess,
        updateByte, h1, ETIMEDOUT]
  | reply size f =>
      simp [rmi_current, bufSet, rmi_send_cmd_snd, rmi_send_cmd_fst, initSess,
        updateByte, h1, replyByte, memcpy_into]

/-! ## Claim C1 -/

/-- Claim C1, amended: over the whole input space the decode performs the
mantissa/exponent decomposition, sign extension and round-to-even the
claim states, but in unsigned 32-bit arithmetic — the rounded mantissa is
taken as its unsigned 32-bit representative, products wrap modulo `2^32`,
the division by `2^|exponent|` is unsigned floor division on that
representative, and the result is reinterpreted as a signed 32-bit
integer. -/
theorem c1_decode_u32_semantics (data : Nat) :
    get_int_from_uint16_double data = decode_u32_spec data := by
  have hmod := frac_u32_mod data
  have hexp := exp_s32_eq data
  simp only [get_int_from_uint16_double, decode_u32_spec, pow2i, toInt32, hexp]
  by_cases hpos : claim_exponent data > 0
  · rw [if_pos hpos, if_pos hpos]
    have key :
        ((frac_u32 data * 1000 % 4294967296 * 2 ^ (claim_exponent data).toNat
            % 4294967296 : Nat) : Int)
          = (roundUpEven (claim_mantissa data) * 1000 % 4294967296
              * 2 ^ (claim_exponent data).toNat) % 4294967296 := by
      push_cast
      have h1 : ((frac_u32 data : Nat) : Int) * 1000 % 4294967296
          = roundUpEven (claim_mantissa data) * 1000 % 4294967296 := by
        omega
      rw [h1]
    rw [key]
    split_ifs with h1 h2 h3 <;> omega
  · rw [if_neg hpos, if_neg hpos]
    have key :
        ((frac_u32 data * 1000 % 4294967296
            / 2 ^ (-claim_exponent data).toNat : Nat) : Int)
          = roundUpEven (claim_mantissa data) * 1000 % 4294967296
              / 2 ^ (-claim_exponent data).toNat := by
      rw [Int.ofNat_ediv]
      push_cast
      have h1 : ((frac_u32 data : Nat) : Int) * 1000 % 4294967296
          = roundUpEven (claim_mantissa data) * 1000 % 4294967296 := by
        omega
      rw [h1]
    rw [key]
    split_ifs with h1 h2 h3 <;> omega

/-- Claim C1 as stated fails: at input `0xFFFE` (mantissa `-2`, exponent
`-1`) `get_int_from_uint16_double` divides the unsigned representative
`2^32 - 2000` by 2 and returns the large positive `2147482648`, while the
claimed formula gives `-1000`. -/
theorem c1_counterexample :
    get_int_from_uint16_double 65534 = 2147482648 ∧
    claim_decode 65534 = -1000 ∧
    get_int_from_uint16_double 65534 ≠ claim_decode 65534 := by
  refine ⟨by decide, by decide, by decide⟩

/-! ## Claim C2 -/

/-- Claim C2, amended: the `rmi_*` sensor reads never inspect the status
byte — whenever the transmission completes they interpret the payload
bytes unconditionally, whatever the status byte `st` is; only the legacy
`send_usb_cmd`/`get_data` path applies the `ccp_get_errno` mapping before
the payload is read, short-circuiting on a non-success status. -/
theorem c2_rmi_ignores_status (st b2 b3 cmd ch : Nat) (two : Bool) :
    (rmi_voltage (scriptStatus st b2 b3) 0 initSess).fst
      = get_int_from_uint16_double ((b3 % 256) * 256 + b2 % 256) ∧
    (rmi_temperature (scriptStatus st b2 b3) 0 initSess).fst
      = ((b2 % 256) * 256 + b3 % 256 : Nat) ∧
    (rmi_fan (scriptStatus st b2 b3) initSess).fst
      = ((b3 % 256) * 256 + b2 % 256 : Nat) ∧
    (rmi_current (scriptStatus st b2 b3) ch initSess).fst
      = get_int_from_uint16_double ((b3 % 256) * 256 + b2 % 256) ∧
    (rmi_power (scriptStatus st b2 b3) 0 initSess).fst
      = wrap_s32 (get_int_from_uint16_double ((b3 % 256) * 256 + b2 % 256) * 1000) ∧
    (get_data (scriptStatus st b2 b3) cmd ch two initSess).fst
      = (if st % 256 = 0 then (if two then (b2 % 256 : Int) else 0)
         else status_to_errno (st % 256)) := by
  refine ⟨?_, ?_, ?_, ?_, ?_, ?_⟩
  · simp [rmi_voltage, bufSet, rmi_send_cmd, initSess, updateByte, memcpy_into,
      scriptStatus, c2frame]
  · simp [rmi_temperature, bufSet, rmi_send_cmd, initSess, updateByte, memcpy_into,
      scriptStatus, c2frame]
  · simp [rmi_fan, bufSet, rmi_send_cmd, initSess, updateByte, memcpy_into,
      scriptStatus, c2frame]
  · simp [rmi_current, bufSet, rmi_send_cmd, initSess, updateByte, memcpy_into,
      scriptStatus, c2frame]
  · simp [rmi_power, bufSet, rmi_send_cmd, initSess, updateByte, memcpy_into,
      scriptStatus, c2frame]
  · by_cases hst : st % 256 = 0
    · simp [get_data, send_usb_cmd, bufSet, rmi_send_cmd, initSess, updateByte,
        memcpy_into, scriptStatus, c2frame, ccp_get_errno, hst, status_to_errno]
    · have hne : status_to_errno (st % 256) ≠ 0 := by
        rw [Ne, status_to_errno_zero_iff]
        exact hst
      simp [get_data, send_usb_cmd, bufSet, rmi_send_cmd, initSess, updateByte,
        memcpy_into, scriptStatus, c2frame, ccp_get_errno, hst, hne]

/-- Claim C2 as stated fails: a reply whose status byte is `0x10`
(invalid argument) with payload word `0x0002` makes `rmi_voltage` return
the decoded value 2000, not the device-status error `-EINVAL = -22`. -/
theorem c2_counterexample :
    (rmi_voltage (scriptStatus 16 2 0) 0 initSess).fst = 2000 ∧
    status_to_errno 16 = -22 ∧
    (rmi_voltage (scriptStatus 16 2 0) 0 initSess).fst ≠ -22 := by
  refine ⟨by decide, by decide, by decide⟩

/-! ## Claim C3 -/

/-- Claim C3, amended: for every channel `q + 1 > 0`, `rmi_voltage` and
`rmi_power` (and `rmi_current` for every channel `q`) issue the
channel-select frame (opcode 2) strictly before the value-read frame
(opcode 3), but the select step's result is discarded: the value-read
frame is issued whatever the select transmission's outcome, and the
operation's return value is determined solely by the second (value-read)
transmission, so a select failure is never returned to the caller. -/
theorem c3_select_result_discarded (q : Nat) (script : Nat → TransportResult) :
    (rmi_voltage script (q + 1) initSess).snd.sent.length = 2 ∧
    ((rmi_voltage script (q + 1) initSess).snd.sent.getD 0 zbuf) 0 = 2 ∧
    ((rmi_voltage script (q + 1) initSess).snd.sent.getD 1 zbuf) 0 = 3 ∧
    ((rmi_voltage script (q + 1) initSess).snd.sent.getD 1 zbuf) 1 = 0x8B ∧
    (rmi_power script (q + 1) initSess).snd.sent.length = 2 ∧
    ((rmi_power script (q + 1) initSess).snd.sent.getD 0 zbuf) 0 = 2 ∧
    ((rmi_power script (q + 1) initSess).snd.sent.getD 1 zbuf) 0 = 3 ∧
    ((rmi_power script (q + 1) initSess).snd.sent.getD 1 zbuf) 1 = 0x96 ∧
    (rmi_current script q initSess).snd.sent.length = 2 ∧
    ((rmi_current script q initSess).snd.sent.getD 0 zbuf) 0 = 2 ∧
    ((rmi_current script q initSess).snd.sent.getD 1 zbuf) 0 = 3 ∧
    ((rmi_current script q initSess).snd.sent.getD 1 zbuf) 1 = 0x8C ∧
    (rmi_voltage script (q + 1) initSess).fst
      = (match script 1 with
         | TransportResult.sendErr k => -(k + 1 : Int)
         | TransportResult.timeout => -ETIMEDOUT
         | TransportResult.reply size f =>
             get_int_from_uint16_double (replyByte size f 3 * 256 + replyByte size f 2)) ∧
    (rmi_power script (q + 1) initSess).fst
      = (match script 1 with
         | TransportResult.sendErr k => -(k + 1 : Int)
         | TransportResult.timeout => -ETIMEDOUT
         | TransportResult.reply size f =>
             wrap_s32 (get_int_from_uint16_double
               (replyByte size f 3 * 256 + replyByte size f 2) * 1000)) ∧
    (rmi_current script q initSess).fst
      = (match script 1 with
         | TransportResult.sendErr k => -(k + 1 : Int)
         | TransportResult.timeout => -ETIMEDOUT
         | TransportResult.reply size f =>
             get_int_from_uint16_double (replyByte size f 3 * 256 + replyByte size f 2)) := by
  refine ⟨?_, ?_, ?_, ?_, ?_, ?_, ?_, ?_, ?_, ?_, ?_, ?_,
    rmi_voltage_fst_formula q script, rmi_power_fst_formula q script,
    rmi_current_fst_formula q script⟩ <;>
    simp [rmi_voltage, rmi_power, rmi_current, bufSet, rmi_send_cmd_snd,
      initSess, updateByte, zbuf]

/-- Claim C3 as stated fails: with a transport whose first transmission
times out, `rmi_voltage` on channel 1 still issues the value-read frame
(two frames are sent) and returns the decoded all-zero reply (0) instead
of the select step's `-ETIMEDOUT`. -/
theorem c3_counterexample :
    (rmi_send_cmd scriptC3 true
        (bufSet (bufSet (bufSet initSess 0 0x02) 1 0x00) 2 0)).fst = -ETIMEDOUT ∧
    (rmi_voltage scriptC3 1 initSess).snd.sent.length = 2 ∧
    (rmi_voltage scriptC3 1 initSess).fst = 0 ∧
    (rmi_voltage scriptC3 1 initSess).fst ≠ -ETIMEDOUT := by
  refine ⟨by decide, by decide, by decide, by decide⟩

/-! ## Claim C4 -/

/-- Claim C4: the source's own locking rule (the `struct ccp_device`
comment: whenever the buffer is used, lock) is respected by the legacy
`get_data` path but violated by the sensor reads actually dispatched
from `ccp_read` — `rmi_fan` writes the shared buffer and transmits with
the mutex never taken, so its caller-side trace fails the lock
discipline that `get_data`'s trace satisfies. -/
theorem c4_lock_violation :
    (ccp_read scriptTO HwmonType.fan 0 initSess).snd.snd.events
      = [Event.bufWrite, Event.bufWrite, Event.bufWrite, Event.bufWrite, Event.send] ∧
    locksOk 0 ((ccp_read scriptTO HwmonType.fan 0 initSess).snd.snd.events) = false ∧
    locksOk 0 ((get_data scriptTO 0x11 0 true initSess).snd.events) = true := by
  refine ⟨by decide, by decide, by decide⟩

/-! ## Claim C5 -/

/-- Claim C5: the status-byte mapping is a total function agreeing with
the claim's table — `0x00` to success, `0x01` to unsupported operation,
`0x10` to invalid argument, `0x11`/`0x12` to no data, every other byte to
the unknown-device-error — and always yields one of those five
outcomes. -/
theorem c5_status_mapping_total (buffer : Nat → Nat) :
    ccp_get_errno buffer = status_spec (buffer 0) ∧
    (ccp_get_errno buffer = 0 ∨ ccp_get_errno buffer = -EOPNOTSUPP ∨
     ccp_get_errno buffer = -EINVAL ∨ ccp_get_errno buffer = -ENODATA ∨
     ccp_get_errno buffer = -EIOERR) := by
  unfold ccp_get_errno status_to_errno status_spec
  constructor
  · split_ifs <;> simp_all
  · split_ifs <;> simp

/-! ## Claim C6 -/

/-- Claim C6, amended: `rmi_fan` sends a single read-register frame
(opcode 3, register `0x90`) and returns the raw 16-bit payload with no
codec, but combined little-endian: the later payload byte (slot 3) is
the high-order byte, so a reply `f` yields `f 3 * 256 + f 2`. -/
theorem c6_fan_frame_and_value (f : Nat → Nat) (script : Nat → TransportResult) :
    (rmi_fan script initSess).snd.sent.length = 1 ∧
    ((rmi_fan script initSess).snd.sent.getD 0 zbuf) 0 = 3 ∧
    ((rmi_fan script initSess).snd.sent.getD 0 zbuf) 1 = 0x90 ∧
    ((rmi_fan script initSess).snd.sent.getD 0 zbuf) 2 = 0 ∧
    ((rmi_fan script initSess).snd.sent.getD 0 zbuf) 3 = 0 ∧
    (rmi_fan (fun _ => TransportResult.reply 64 f) initSess).fst
      = ((f 3 % 256) * 256 + f 2 % 256 : Nat) := by
  refine ⟨?_, ?_, ?_, ?_, ?_, ?_⟩ <;>
    simp [rmi_fan, bufSet, rmi_send_cmd_snd, rmi_send_cmd_fst, initSess, updateByte,
      memcpy_into, zbuf]

/-- Claim C6 as stated fails: a reply whose earlier payload byte
(slot 2) is 1 and whose later payload byte (slot 3) is 0 would decode to
256 under the claimed big-endian combination, but `rmi_fan` returns 1 —
the earlier byte is the low-order byte. -/
theorem c6_counterexample :
    (rmi_fan scriptFan initSess).fst = 1 ∧
    (rmi_fan scriptFan initSess).fst ≠ 256 := by
  refine ⟨by decide, by decide⟩

/-! ## Claim C7 -/

/-- Claim C7: `rmi_current` always issues exactly two frames — a
channel-select write (opcode 2, register 0) carrying the raw (`u8`)
channel value, then a read of current register `0x8C` whose reply is
decoded through the fixed-point codec — while `rmi_voltage` and
`rmi_power` send `channel - 1` in the select frame for channels above
zero and, for channel 0, issue a single direct read of their dedicated
register (`0x88` and `0xEE`) with no select step. -/
theorem c7_channel_indexing (probe : Nat) (f : Nat → Nat)
    (script : Nat → TransportResult) :
    (rmi_current script probe initSess).snd.sent.length = 2 ∧
    ((rmi_current script probe initSess).snd.sent.getD 0 zbuf) 0 = 2 ∧
    ((rmi_current script probe initSess).snd.sent.getD 0 zbuf) 1 = 0 ∧
    ((rmi_current script probe initSess).snd.sent.getD 0 zbuf) 2 = probe % 256 ∧
    ((rmi_current script probe initSess).snd.sent.getD 1 zbuf) 0 = 3 ∧
    ((rmi_current script probe initSess).snd.sent.getD 1 zbuf) 1 = 0x8C ∧
    (rmi_current (fun _ => TransportResult.reply 64 f) probe initSess).fst
      = get_int_from_uint16_double ((f 3 % 256) * 256 + f 2 % 256) ∧
    (rmi_voltage script (probe + 1) initSess).snd.sent.length = 2 ∧
    ((rmi_voltage script (probe + 1) initSess).snd.sent.getD 0 zbuf) 0 = 2 ∧
    ((rmi_voltage script (probe + 1) initSess).snd.sent.getD 0 zbuf) 2 = probe % 256 ∧
    (rmi_power script (probe + 1) initSess).snd.sent.length = 2 ∧
    ((rmi_power script (probe + 1) initSess).snd.sent.getD 0 zbuf) 0 = 2 ∧
    ((rmi_power script (probe + 1) initSess).snd.sent.getD 0 zbuf) 2 = probe % 256 ∧
    (rmi_voltage script 0 initSess).snd.sent.length = 1 ∧
    ((rmi_voltage script 0 initSess).snd.sent.getD 0 zbuf) 0 = 3 ∧
    ((rmi_voltage script 0 initSess).snd.sent.getD 0 zbuf) 1 = 0x88 ∧
    (rmi_power script 0 initSess).snd.sent.length = 1 ∧
    ((rmi_power script 0 initSess).snd.sent.getD 0 zbuf) 0 = 3 ∧
    ((rmi_power script 0 initSess).snd.sent.getD 0 zbuf) 1 = 0xEE := by
  refine ⟨?_, ?_, ?_, ?_, ?_, ?_, ?_, ?_, ?_, ?_, ?_, ?_, ?_, ?_, ?_, ?_, ?_, ?_, ?_⟩ <;>
    first
    | (simp [rmi_current, rmi_voltage, rmi_power, bufSet, rmi_send_cmd_snd,
        initSess, updateByte, zbuf]; done)
    | (simp [rmi_current, bufSet, rmi_send_cmd, initSess, updateByte,
        memcpy_into]; done)

/-! ## Claim C8 -/

/-- Claim C8: on every inbound frame, if the completion is already
signalled the frame is discarded with the buffer untouched; otherwise at
most 64 bytes are copied into the shared buffer (bytes beyond the copied
prefix keep their old content) and the completion is signalled. -/
theorem c8_raw_event_behavior (buf data : Nat → Nat) (size : Nat) :
    ccp_raw_event ⟨buf, true⟩ data size = ⟨buf, true⟩ ∧
    (ccp_raw_event ⟨buf, false⟩ data size).completionDone = true ∧
    ∀ i, (ccp_raw_event ⟨buf, false⟩ data size).buffer i
        = if i < min 64 size then data i % 256 else buf i := by
  exact ⟨rfl, rfl, fun i => rfl⟩

/-! ## Claim C9 -/

/-- Claim C9, amended: `corsairlink_rmi_name` issues a single frame
staging `0xFE 0x03` and copies 16 payload bytes from offset 2 as the
display name, but it ignores the transmission's result and returns 0
unconditionally, so the attach-time check in `ccp_probe` never fires and
the session is published to the host framework even when the name read
failed. -/
theorem c9_name_always_succeeds (script : Nat → TransportResult) :
    (corsairlink_rmi_name script initSess).snd.snd.sent.length = 1 ∧
    ((corsairlink_rmi_name script initSess).snd.snd.sent.getD 0 zbuf) 0 = 0xfe ∧
    ((corsairlink_rmi_name script initSess).snd.snd.sent.getD 0 zbuf) 1 = 3 ∧
    (corsairlink_rmi_name script initSess).fst = 0 ∧
    ccp_probe_publishes script = true ∧
    (corsairlink_rmi_name scriptName initSess).snd.fst 5 = 17 := by
  refine ⟨?_, ?_, ?_, ?_, ?_, by decide⟩ <;>
    simp [corsairlink_rmi_name, ccp_probe_publishes, bufSet, rmi_send_cmd_snd,
      initSess, updateByte, zbuf]

/-- Claim C9 as stated fails: with a transport that never answers, the
name-read transmission itself times out (`-ETIMEDOUT`), yet
`corsairlink_rmi_name` still returns 0 and the probe gate publishes the
session. -/
theorem c9_counterexample :
    (rmi_send_cmd scriptTO true
        (bufSet (bufSet initSess 0 0xfe) 1 0x03)).fst = -ETIMEDOUT ∧
    (corsairlink_rmi_name scriptTO initSess).fst = 0 ∧
    ccp_probe_publishes scriptTO = true := by
  refine ⟨by decide, by decide, by decide⟩

/-! ## Claim C10 -/

/-- Claim C10: whatever the sensor type, channel, transport behaviour
and starting session, whenever `ccp_read` stores a value for the host
framework that value is nonnegative — a negative register-access result
(error code or negatively-decoded reading) is returned as an error and
never stored. -/
theorem c10_nonnegative_stored (script : Nat → TransportResult) (ty : HwmonType)
    (channel : Nat) (s : Sess) (v : Int)
    (h : (ccp_read script ty channel s).snd.fst = some v) : 0 ≤ v := by
  simp only [ccp_read] at h
  split at h
  · exact absurd h (by simp)
  · rename_i hge
    obtain rfl : _ = v := Option.some.inj h
    omega

/-- Witness for claim C10 at a concrete input: a fan read served with an
all-zero success reply stores the value 0, and the theorem applies. -/
theorem c10_witness :
    ((ccp_read zeroReply HwmonType.fan 0 initSess).snd.fst = some 0) ∧ (0 : Int) ≤ 0 :=
  ⟨by decide, c10_nonnegative_stored zeroReply HwmonType.fan 0 initSess 0 (by decide)⟩
